import Mathlib

/-!
Shallow embedding of the pybind data-binding engine (src/pybind.py) and its
hierarchical error collector (src/errors.py), with theorems settling the
frozen claims about the natural-language specification.

Python values are modelled by the inductive `Py` (the generic parsed-document
tree: the `MISSING` sentinel, `None`, scalars, sequences, maps, and bound
class instances).  Python exceptions are modelled by `Exc`; a binder is a
function `Py → Except Exc Py`, mirroring `Binder = Callable[[Any], T]` where
failure is signalled by raising.
-/

namespace Pybind

/-- Python runtime values as pybind sees them.  `missing` is the module-level
`MISSING = object()` sentinel; `pynone` is Python's `None`; `pyobj` is a
freshly constructed class instance carrying its bound attributes (the result
of the default-construct-then-setattr loop, or of `cls(**kwargs)` for a
NamedTuple). -/
inductive Py where
  | missing
  | pynone
  | pystr (s : String)
  | pyint (n : Int)
  | pybool (b : Bool)
  | pylist (xs : List Py)
  | pytuple (xs : List Py)
  | pydict (entries : List (String × Py))
  | pyobj (fields : List (String × Py))

/-- Python exceptions the engine raises or inspects.  `pybindError` is
`PybindError` ("Binding failed"), `configError` is `ConfigError`;
`typeError`/`valueError`/`attributeError`/`keyError` stand for the builtin
exception classes of the same names. -/
inductive Exc where
  | pybindError (msg : String)
  | configError (msg : String)
  | typeError
  | valueError
  | attributeError
  | keyError

/-- `Binder = Callable[[Any], T]`: a conversion from raw data that either
returns a value or raises. -/
abbrev Binder := Py → Except Exc Py

/-- Python's `str(...)` on the values the claims touch.  Container and
sentinel renderings never feed a claim (CPython prints the elements, or an
object address for `MISSING`), so they are fixed placeholder texts here. -/
def pyStr : Py → String
  | .missing => "<object object>"
  | .pynone => "None"
  | .pystr s => s
  | .pyint n => toString n
  | .pybool b => if b then "True" else "False"
  | .pylist _ => "<list>"
  | .pytuple _ => "<tuple>"
  | .pydict _ => "<dict>"
  | .pyobj _ => "<object>"

/-- Characters `str.strip()` removes (the ASCII whitespace Python strips;
`Char.ofNat 11`/`12` are vertical tab and form feed). -/
def isPySpace (c : Char) : Bool :=
  c = ' ' || c = '\t' || c = '\n' || c = '\r' || c = Char.ofNat 11 || c = Char.ofNat 12

/-- Python's `str.strip()`: drop whitespace from both ends. -/
def pyStrip (s : String) : String :=
  String.mk (((s.toList.dropWhile isPySpace).reverse.dropWhile isPySpace).reverse)

/-- The numeric value of a non-empty all-digit character list, else `none`. -/
def digitsVal (cs : List Char) : Option Nat :=
  if cs ≠ [] ∧ cs.all Char.isDigit then
    some (cs.foldl (fun a c => a * 10 + (c.toNat - 48)) 0)
  else none

/-- Python's `int(s)` on a string: surrounding whitespace is allowed, then an
optional sign and a non-empty run of digits; anything else is a
`ValueError`. -/
def pyIntOfString (s : String) : Option Int :=
  match (pyStrip s).toList with
  | '-' :: rest => (digitsVal rest).map (fun n => -(n : Int))
  | '+' :: rest => (digitsVal rest).map (fun n => (n : Int))
  | cs => (digitsVal cs).map (fun n => (n : Int))

/-- Python's `int(...)` constructor on `Py` values: ints pass through, bools
coerce to 0/1, strings parse (else `ValueError`), everything else is a
`TypeError`. -/
def intConv : Py → Except Exc Py
  | .pyint n => .ok (.pyint n)
  | .pybool b => .ok (.pyint (if b then 1 else 0))
  | .pystr s =>
    match pyIntOfString s with
    | some n => .ok (.pyint n)
    | none => .error .valueError
  | _ => .error .typeError

/-- `BindersFactory.create_converting_binder`: rejects `None` outright, then
attempts the native conversion `cls(data)`, turning any exception it raises
into `PybindError('unable to bind \x7bdata\x7d to \x7bcls\x7d')`. -/
def create_converting_binder (conv : Py → Except Exc Py) (clsName : String) : Binder :=
  fun data =>
    match data with
    | .pynone => .error (.pybindError "cannot bind None value")
    | d =>
      match conv d with
      | .ok v => .ok v
      | .error _ => .error (.pybindError ("unable to bind " ++ pyStr d ++ " to " ++ clsName))

/-- The registry's `int` binder: `create_converting_binder(int)`. -/
def int_binder : Binder := create_converting_binder intConv "int"

/-- `nonwhitespace_string_binder`: `None` fails with `'required'`; otherwise
`str(data).strip()`, failing with `'required'` when the stripped text is
empty. -/
def nonwhitespace_string_binder : Binder := fun data =>
  match data with
  | .pynone => .error (.pybindError "required")
  | d =>
    let s := pyStrip (pyStr d)
    if s = "" then .error (.pybindError "required") else .ok (.pystr s)

/-- `make_binder_optional`: the `MISSING` sentinel binds to `None` without
calling the wrapped binder; a `TypeError` raised by the wrapped binder is
swallowed into `None`; every other outcome passes through. -/
def make_binder_optional (binder : Binder) : Binder := fun value =>
  match value with
  | .missing => .ok .pynone
  | v =>
    match binder v with
    | .error .typeError => .ok .pynone
    | r => r

/-- `make_binder_required`: the `MISSING` sentinel raises
`PybindError('value is missing, but required')` before the wrapped binder is
consulted; everything else delegates. -/
def make_binder_required (binder : Binder) : Binder := fun value =>
  match value with
  | .missing => .error (.pybindError "value is missing, but required")
  | v => binder v

/-- The trial loop of `create_union_binder`: try each alternative's binder on
the datum, treating a raised `PybindError` as "try the next alternative";
a success returns at once, any other exception propagates, and exhaustion
raises the single aggregate `PybindError`. -/
def union_go (clsName : String) (data : Py) : List Binder → Except Exc Py
  | [] => .error (.pybindError ("unable to bind " ++ pyStr data ++ " to " ++ clsName))
  | b :: bs =>
    match b data with
    | .ok v => .ok v
    | .error (.pybindError _) => union_go clsName data bs
    | .error e => .error e

/-- `BindersFactory.create_union_binder`, applied to the alternatives'
already-compiled binders (`self.get(t)` for each member of `__args__`). -/
def create_union_binder (binders : List Binder) (clsName : String) : Binder :=
  fun data => union_go clsName data binders

/-- The element loop `tuple(b(d) for b, d in zip(binders, data))`: bind
pairwise, left to right, zip-shortest, the first raised exception
propagating. -/
def bindEach : List Binder → List Py → Except Exc (List Py)
  | [], _ => .ok []
  | _, [] => .ok []
  | b :: bs, d :: ds =>
    match b d with
    | .error e => .error e
    | .ok v =>
      match bindEach bs ds with
      | .error e => .error e
      | .ok vs => .ok (v :: vs)

/-- The fixed-arity branch of `BindersFactory.create_tuple_binder` (the one
taken when the descriptor is not `Tuple[T, ...]`), applied to the slots'
compiled binders: a non-sequence raises, otherwise the input is padded on
the right with `MISSING` by `data += [MISSING] * (len(binders) - len(data))`
(a no-op for longer inputs, Python's list-repeat of a negative count being
empty) and bound element-wise with zip-shortest. -/
def create_tuple_binder (binders : List Binder) : Binder := fun data =>
  match data with
  | .pylist xs | .pytuple xs =>
    (bindEach binders (xs ++ List.replicate (binders.length - xs.length) Py.missing)).map
      Py.pytuple
  | _ => .error (.pybindError "must be convertable to list")

/-- `isinstance(data, (list, tuple))`. -/
def isSeq : Py → Bool
  | .pylist _ => true
  | .pytuple _ => true
  | _ => false

/-- Python's `data.get(name, MISSING)` on a dict modelled as an association
list (keys are unique in a real dict; the first hit is taken). -/
def dict_get : List (String × Py) → String → Py
  | [], _ => Py.missing
  | (k, v) :: rest, name => if k = name then v else dict_get rest name

/-- The per-field loop shared by the custom-class binder's
`for name, binder in binders.items(): ... data.get(name, MISSING) ...` and
the NamedTuple binder's named-branch comprehension: each declared field is
looked up by name (defaulting to `MISSING`) and bound, the first raised
exception propagating. -/
def bind_fields (binders : List (String × Binder)) (data : List (String × Py)) :
    Except Exc (List (String × Py)) :=
  match binders with
  | [] => .ok []
  | (name, b) :: rest =>
    match b (dict_get data name) with
    | .error e => .error e
    | .ok v =>
      match bind_fields rest data with
      | .error e => .error e
      | .ok vs => .ok ((name, v) :: vs)

/-- What the compile phase of `create_custom_class_binder` needs to know
about the target class: `inspect.isabstract(cls)` and
`cls.__init__ is object.__init__`. -/
structure PyClass where
  name : String
  isAbstract : Bool
  hasDefaultConstructor : Bool

/-- The per-datum binder `create_custom_class_binder` returns: default-
construct the instance and assign each declared field's bound value onto it
(`setattr` in declaration order).  On non-dict data the source's
`data.get(name, MISSING)` raises `AttributeError`. -/
def custom_class_data_binder (binders : List (String × Binder)) : Binder := fun data =>
  match data with
  | .pydict entries => (bind_fields binders entries).map Py.pyobj
  | _ => .error .attributeError

/-- `BindersFactory.create_custom_class_binder`, compile phase included:
an abstract target raises `ConfigError('abstract classes are not
supported')`; a target whose `__init__` is not `object.__init__` raises
`PybindError('\x7bcls\x7d must have default constructor')`; otherwise the
per-datum binder over the fields' compiled binders (from
`get_type_hints(cls)`) is returned. -/
def create_custom_class_binder (cls : PyClass) (binders : List (String × Binder)) :
    Except Exc Binder :=
  if cls.isAbstract then
    .error (.configError "abstract classes are not supported")
  else if !cls.hasDefaultConstructor then
    .error (.pybindError (cls.name ++ " must have default constructor"))
  else
    .ok (custom_class_data_binder binders)

/-- `binders[name]` in the NamedTuple binder's positional branch: the
compile-time check `set(fields) == annotations.keys()` makes a `KeyError`
unreachable there. -/
def binder_for : List (String × Binder) → String → Binder
  | [], _ => fun _ => .error .keyError
  | (k, b) :: rest, name => if k = name then b else binder_for rest name

/-- The positional branch's comprehension
`\x7bname: binders[name](d) for name, d in zip(fields, data)\x7d`. -/
def bind_positional (fields : List String) (binders : List (String × Binder))
    (data : List Py) : Except Exc (List (String × Py)) :=
  match fields, data with
  | [], _ => .ok []
  | _, [] => .ok []
  | name :: names, d :: ds =>
    match binder_for binders name d with
    | .error e => .error e
    | .ok v =>
      match bind_positional names binders ds with
      | .error e => .error e
      | .ok vs => .ok ((name, v) :: vs)

/-- The per-datum binder of `BindersFactory.created_namedtuple_binder`: a
sequence binds positionally (padded on the right with `MISSING` to the field
count), a dict binds by name via `data.get(name, MISSING)` over the declared
fields, anything else raises; `cls(**kwargs)` then constructs the tuple
(modelled as the kwargs themselves — a NamedTuple constructor given exactly
its declared keywords does not raise, and the source would wrap such an
exception into a `PybindError`). -/
def created_namedtuple_binder (clsName : String) (fields : List String)
    (binders : List (String × Binder)) : Binder := fun data =>
  match data with
  | .pylist xs | .pytuple xs =>
    (bind_positional fields binders
        (xs ++ List.replicate (fields.length - xs.length) Py.missing)).map Py.pyobj
  | .pydict entries => (bind_fields binders entries).map Py.pyobj
  | d => .error (.pybindError ("unable to bind " ++ pyStr d ++ " to " ++ clsName))

/-- A type descriptor as a cache key: descriptors are hashable objects
compared structurally (`typing` objects in the source); two variants are
enough to quantify over distinct keys. -/
inductive Desc where
  | prim (name : String)
  | optionalD (d : Desc)
deriving DecidableEq

/-- Lookup in the `_cache` dict (`self._cache[cls]`, `KeyError` as `none`). -/
def cache_lookup : List (Desc × Nat) → Desc → Option Nat
  | [], _ => none
  | (k, v) :: rest, d => if k = d then some v else cache_lookup rest d

/-- Python dict assignment `registry[cls] = binder` on an association list:
replace the first hit or append. -/
def registry_set (r : List (String × Nat)) (k : String) (b : Nat) : List (String × Nat) :=
  match r with
  | [] => [(k, b)]
  | (k0, b0) :: rest =>
    if k0 = k then (k, b) :: rest else (k0, b0) :: registry_set rest k b

/-- The mutable state of a `BindersFactory` instance.  Binder objects are
tracked by identity: `create` always returns a brand-new closure (its last
step wraps with `make_binder_optional`/`make_binder_required`, allocating a
fresh function object), so creation is modelled as drawing a fresh id from
`nextId`; `cache` is `self._cache`, `registry` the keys/ids of
`self._binders_registry`. -/
structure BindersFactory where
  cache : List (Desc × Nat)
  registry : List (String × Nat)
  nextId : Nat

/-- `BindersFactory.get`: return the cached binder for the descriptor, or
create one, cache it and return it. -/
def BindersFactory.get (s : BindersFactory) (d : Desc) : Nat × BindersFactory :=
  match cache_lookup s.cache d with
  | some b => (b, s)
  | none => (s.nextId, ⟨s.cache ++ [(d, s.nextId)], s.registry, s.nextId + 1⟩)

/-- `BindersFactory.register_binder`: `self._cache = \x7b\x7d` — the whole
memoization cache is discarded — then the registry entry is written. -/
def BindersFactory.register_binder (s : BindersFactory) (k : String) (b : Nat) :
    BindersFactory :=
  ⟨[], registry_set s.registry k b, s.nextId⟩

/-- Every binder id the cache holds was allocated before `nextId`: true of
every state reachable from a fresh factory, and what makes a post-clear
`create` fresh. -/
def BindersFactory.WF (s : BindersFactory) : Prop :=
  ∀ p ∈ s.cache, p.2 < s.nextId

/-! ## The error collector (src/errors.py) -/

/-- A path segment: field names are strings, indices integers (the test
drives the collector with the int key `0`). -/
abbrev Seg := String ⊕ Int

/-- `GLOBAL_ERROR_KEY = ''`: the "local bucket" key. -/
def GLOBAL_ERROR_KEY : Seg := Sum.inl ""

/-- One value of the collector's nested dict: either the local list of error
values (under the `''` key) or a nested subtree. -/
inductive ENode where
  | errs (l : List String)
  | dict (entries : List (Seg × ENode))

/-- `es.setdefault(GLOBAL_ERROR_KEY, []).append(error)` on one dict level:
append the error to the local bucket, creating the bucket (at the end of the
dict, Python's insertion order) when absent.  A dict under the `''` key is
impossible for real paths (CPython would raise on `.append`); the entry is
left unchanged. -/
def append_local : List (Seg × ENode) → String → List (Seg × ENode)
  | [], e => [(GLOBAL_ERROR_KEY, ENode.errs [e])]
  | (k, v) :: rest, e =>
    if k = GLOBAL_ERROR_KEY then
      match v with
      | ENode.errs l => (k, ENode.errs (l ++ [e])) :: rest
      | ENode.dict d => (k, ENode.dict d) :: rest
    else (k, v) :: append_local rest e

/-- `es.setdefault(p, \x7b\x7d)` followed by the rest of the walk `f`: descend
into the subtree under `p`, creating an empty one (appended, Python's
insertion order) when absent.  A list under a path key is impossible for real
paths distinct from `''` (CPython would raise on the next `setdefault`); the
entry is left unchanged. -/
def upsert (p : Seg) (f : List (Seg × ENode) → List (Seg × ENode)) :
    List (Seg × ENode) → List (Seg × ENode)
  | [] => [(p, ENode.dict (f []))]
  | (k, v) :: rest =>
    if k = p then
      match v with
      | ENode.dict d => (k, ENode.dict (f d)) :: rest
      | ENode.errs l => (k, ENode.errs l) :: rest
    else (k, v) :: upsert p f rest

/-- The body of `Errors.add_error`: walk `_current_path` with
`setdefault(p, \x7b\x7d)`, then append to the local bucket. -/
def add_at : List Seg → List (Seg × ENode) → String → List (Seg × ENode)
  | [], entries, e => append_local entries e
  | p :: ps, entries, e => upsert p (fun d => add_at ps d e) entries

/-- The state of one `Errors` collector instance: `self._errors` (the root
dict) and `self._current_path` (the tuple used as a stack). -/
structure Errors where
  _errors : List (Seg × ENode)
  _current_path : List Seg

/-- `Errors.__init__`: empty tree, empty path. -/
def Errors.init : Errors := ⟨[], []⟩

/-- `Errors.add_error`. -/
def Errors.add_error (s : Errors) (e : String) : Errors :=
  ⟨add_at s._current_path s._errors e, s._current_path⟩

/-- `Errors.as_dict`: `copy.deepcopy(self._errors)` — in a pure model the
deep copy of the tree is the tree itself. -/
def Errors.as_dict (s : Errors) : List (Seg × ENode) :=
  s._errors

/-- A block of collector-driving work, as the caller writes it: adds,
sequencing, `with self.with_path(seg):` scopes, and a point where an
exception is raised. -/
inductive Op where
  | skip
  | add (e : String)
  | raiseExc
  | seq (a b : Op)
  | with_path (seg : Seg) (body : Op)

/-- Run a block against a collector.  The returned flag is `true` when an
exception is propagating.  `with_path` is the `@contextmanager`: push the
segment (`self._current_path + (path,)`), run the body, and in the `finally`
drop the last segment (`self._current_path[:-1]`) whether or not the body
raised, re-raising afterwards. -/
def runOp : Op → Errors → Errors × Bool
  | .skip, s => (s, false)
  | .add e, s => (s.add_error e, false)
  | .raiseExc, s => (s, true)
  | .seq a b, s =>
    match runOp a s with
    | (s1, true) => (s1, true)
    | (s1, false) => runOp b s1
  | .with_path seg body, s =>
    match runOp body ⟨s._errors, s._current_path ++ [seg]⟩ with
    | (s1, exc) => (⟨s1._errors, s1._current_path.dropLast⟩, exc)

/-- The scenario of `test_add_error` (src/test_errors.py): `'_1'` at the
root, `'a_1'`, `'a_2'` under `a`, `'aa_1'` under `a/aa`, `'b_1'` under `b`,
`'b0_1'` under `b/0`. -/
def errorsScenario : Op :=
  .seq (.add "_1")
    (.seq
      (.with_path (Sum.inl "a")
        (.seq (.add "a_1")
          (.seq (.add "a_2")
            (.with_path (Sum.inl "aa") (.add "aa_1")))))
      (.with_path (Sum.inl "b")
        (.seq (.add "b_1")
          (.with_path (Sum.inr 0) (.add "b0_1")))))

/-- The nested tree the claim (and `test_add_error`) expects the scenario to
produce. -/
def expectedTree : List (Seg × ENode) :=
  [(Sum.inl "", ENode.errs ["_1"]),
   (Sum.inl "a", ENode.dict
      [(Sum.inl "", ENode.errs ["a_1", "a_2"]),
       (Sum.inl "aa", ENode.dict [(Sum.inl "", ENode.errs ["aa_1"])])]),
   (Sum.inl "b", ENode.dict
      [(Sum.inl "", ENode.errs ["b_1"]),
       (Sum.inr 0, ENode.dict [(Sum.inl "", ENode.errs ["b0_1"])])])]

/-! ## Helper lemmas -/

/-- On non-`None` data the string binder is exactly "strip, then require
non-empty". -/
theorem nonwhitespace_string_binder_eq (d : Py) (hd : d ≠ Py.pynone) :
    nonwhitespace_string_binder d =
      if pyStrip (pyStr d) = "" then Except.error (Exc.pybindError "required")
      else Except.ok (Py.pystr (pyStrip (pyStr d))) := by
  cases d <;> first
    | exact absurd rfl hd
    | rfl

/-- Binding element-wise only consumes as many data elements as there are
binders: the zip-shortest semantics of
`tuple(b(d) for b, d in zip(binders, data))`. -/
theorem bindEach_take (bs : List Binder) (xs : List Py) :
    bindEach bs (xs.take bs.length) = bindEach bs xs := by
  induction bs generalizing xs with
  | nil => cases xs <;> rfl
  | cons b bs ih =>
    cases xs with
    | nil => rfl
    | cons x xs =>
      show bindEach (b :: bs) (x :: xs.take bs.length) = bindEach (b :: bs) (x :: xs)
      cases hbx : b x with
      | error e => simp [bindEach, hbx]
      | ok v => simp [bindEach, hbx, ih]

/-- Appending a fresh cache entry makes its binder the one looked up. -/
theorem cache_lookup_append_self (c : List (Desc × Nat)) (d : Desc) (i : Nat)
    (h : cache_lookup c d = none) : cache_lookup (c ++ [(d, i)]) d = some i := by
  induction c with
  | nil => simp [cache_lookup]
  | cons p rest ih =>
    obtain ⟨k, v⟩ := p
    by_cases hk : k = d
    · simp [cache_lookup, hk] at h
    · simp only [cache_lookup, hk, if_neg, List.cons_append] at h ⊢
      exact ih h

/-- No block of collector-driving work moves the current path: every
`with_path` pops in its `finally` exactly what it pushed, even when the body
raised. -/
theorem runOp_preserves_path (op : Op) (s : Errors) :
    ((runOp op s).1)._current_path = s._current_path := by
  induction op generalizing s with
  | skip => rfl
  | add e => rfl
  | raiseExc => rfl
  | seq a b iha ihb =>
    have ha := iha s
    simp only [runOp]
    cases h : runOp a s with
    | mk s1 exc =>
      rw [h] at ha
      cases exc with
      | true => exact ha
      | false => rw [ihb s1]; exact ha
  | with_path seg body ih =>
    have hb := ih ⟨s._errors, s._current_path ++ [seg]⟩
    simp only [runOp]
    cases h : runOp body ⟨s._errors, s._current_path ++ [seg]⟩ with
    | mk s1 exc =>
      rw [h] at hb
      simp only at hb
      show s1._current_path.dropLast = s._current_path
      rw [hb]
      exact List.dropLast_concat

/-- Two maps that agree on every declared field name bind field-wise to the
same values: the loop reads nothing but `data.get(name, MISSING)` for the
declared names. -/
theorem bind_fields_congr (binders : List (String × Binder)) (m1 m2 : List (String × Py))
    (h : ∀ name ∈ binders.map Prod.fst, dict_get m1 name = dict_get m2 name) :
    bind_fields binders m1 = bind_fields binders m2 := by
  induction binders with
  | nil => rfl
  | cons p rest ih =>
    obtain ⟨name, b⟩ := p
    have h1 : dict_get m1 name = dict_get m2 name := h name (by simp)
    simp only [bind_fields, h1]
    rw [ih (fun n hn => h n (by simp [hn]))]

/-! ## Claims -/

/-- C1: binding the absence marker against `Optional<D>` yields `None` for
every inner binder (so without consulting it), and binding the absence
marker against a non-`Optional` descriptor raises the
"missing required value" `PybindError` for every inner binder (so before
delegating): `make_binder_optional` and `make_binder_required` decide the
`MISSING` case themselves. -/
theorem optional_absent_binds_none_required_absent_raises :
    ∀ binder : Binder,
      make_binder_optional binder Py.missing = Except.ok Py.pynone ∧
      make_binder_required binder Py.missing =
        Except.error (Exc.pybindError "value is missing, but required") :=
  fun _ => ⟨rfl, rfl⟩

/-- C2 counterexample: `bind(Optional[int], "abc")` does not degrade to
`None` — the coercion failure is raised as a `PybindError`, which
`make_binder_optional` (catching only `TypeError`) re-raises. -/
theorem optional_int_nonnumeric_string_propagates_cex :
    make_binder_optional int_binder (Py.pystr "abc") =
      Except.error (Exc.pybindError "unable to bind abc to int") ∧
    make_binder_optional int_binder (Py.pystr "abc") ≠ Except.ok Py.pynone := by
  have h1 : make_binder_optional int_binder (Py.pystr "abc") =
      Except.error (Exc.pybindError "unable to bind abc to int") := rfl
  refine ⟨h1, ?_⟩
  rw [h1]
  intro h
  exact Except.noConfusion h

/-- C2 amended: for `Optional<P>` only absence and an inner `TypeError`
degrade to `None`; a primitive coercion failure is raised by the converting
binder as a `PybindError` and propagates through the optional wrapper, and so
does every other non-`TypeError` failure. -/
theorem optional_degrade_rule_amended :
    (make_binder_optional int_binder Py.missing = Except.ok Py.pynone) ∧
    (∀ s : String, pyIntOfString s = none →
      make_binder_optional int_binder (Py.pystr s) =
        Except.error (Exc.pybindError ("unable to bind " ++ s ++ " to " ++ "int"))) ∧
    (∀ (b : Binder) (v : Py), b v = Except.error Exc.typeError →
      make_binder_optional b v = Except.ok Py.pynone) ∧
    (∀ (b : Binder) (v : Py) (e : Exc), v ≠ Py.missing → e ≠ Exc.typeError →
      b v = Except.error e → make_binder_optional b v = Except.error e) := by
  refine ⟨rfl, ?_, ?_, ?_⟩
  · intro s h
    simp [make_binder_optional, int_binder, create_converting_binder, intConv, h, pyStr]
  · intro b v h
    cases v <;> simp [make_binder_optional, h]
  · intro b v e hv he h
    cases v <;> first
      | exact absurd rfl hv
      | (cases e <;> first
          | exact absurd rfl he
          | simp [make_binder_optional, h])

/-- C5: the compile phase of the custom-aggregate binder fails before any
datum is bound, but a non-abstract target without a default constructor is
rejected with `PybindError` — the per-datum binding-failure kind — not with
the distinct `ConfigError` the claim (and `ConfigError`'s own docstring)
calls for; only the abstract case raises `ConfigError`. -/
theorem custom_class_missing_default_ctor_raises_pybind_error :
    (create_custom_class_binder ⟨"X", false, false⟩ [] =
      Except.error (Exc.pybindError ("X" ++ " must have default constructor"))) ∧
    (∀ m : String, create_custom_class_binder ⟨"X", false, false⟩ [] ≠
      Except.error (Exc.configError m)) ∧
    (create_custom_class_binder ⟨"A", true, true⟩ [] =
      Except.error (Exc.configError "abstract classes are not supported")) := by
  refine ⟨rfl, ?_, rfl⟩
  intro m h
  rw [show create_custom_class_binder ⟨"X", false, false⟩ [] =
      Except.error (Exc.pybindError ("X" ++ " must have default constructor")) from rfl] at h
  exact Exc.noConfusion (Except.error.inj h)

/-- C6: the string binder returns the input stripped of surrounding
whitespace; `None` and any input whose stripped text is empty fail with the
reason code `required`; consequently the empty string is never a bound
value of the string primitive. -/
theorem string_binder_trims_and_requires_nonempty :
    (nonwhitespace_string_binder Py.pynone = Except.error (Exc.pybindError "required")) ∧
    (∀ s : String, nonwhitespace_string_binder (Py.pystr s) =
      if pyStrip s = "" then Except.error (Exc.pybindError "required")
      else Except.ok (Py.pystr (pyStrip s))) ∧
    (∀ d v : Py, nonwhitespace_string_binder d = Except.ok v →
      v = Py.pystr (pyStrip (pyStr d)) ∧ pyStrip (pyStr d) ≠ "") ∧
    (nonwhitespace_string_binder (Py.pystr " \n \t") =
      Except.error (Exc.pybindError "required")) := by
  refine ⟨rfl, fun s => rfl, ?_, rfl⟩
  intro d v h
  by_cases hd : d = Py.pynone
  · subst hd
    exact Except.noConfusion h
  · rw [nonwhitespace_string_binder_eq d hd] at h
    by_cases hs : pyStrip (pyStr d) = ""
    · rw [if_pos hs] at h
      exact Except.noConfusion h
    · rw [if_neg hs] at h
      exact ⟨(Except.ok.inj h).symm, hs⟩

/-- C3: the union binder tries the alternatives' binders in descriptor
order — a success returns at once with later alternatives untried (the head
equation holds for every tail), a `PybindError` moves on to the next
alternative — and when every alternative raises a binding failure the result
is the single aggregate `PybindError` built from the datum and the
descriptor only, carrying none of the per-alternative causes; in particular
`bind(Union[int, str], "1") = 1` and `bind(Union[int, str], "abc") =
"abc"`. -/
theorem union_first_success_else_aggregate_failure :
    (∀ (b : Binder) (bs : List Binder) (n : String) (d v : Py),
      b d = Except.ok v → create_union_binder (b :: bs) n d = Except.ok v) ∧
    (∀ (b : Binder) (bs : List Binder) (n : String) (d : Py) (m : String),
      b d = Except.error (Exc.pybindError m) →
      create_union_binder (b :: bs) n d = create_union_binder bs n d) ∧
    (∀ (bs : List Binder) (n : String) (d : Py),
      (∀ b ∈ bs, ∃ m, b d = Except.error (Exc.pybindError m)) →
      create_union_binder bs n d =
        Except.error (Exc.pybindError ("unable to bind " ++ pyStr d ++ " to " ++ n))) ∧
    (make_binder_required
        (create_union_binder
          [make_binder_required int_binder, make_binder_required nonwhitespace_string_binder]
          "Union") (Py.pystr "1") =
      Except.ok (Py.pyint 1)) ∧
    (make_binder_required
        (create_union_binder
          [make_binder_required int_binder, make_binder_required nonwhitespace_string_binder]
          "Union") (Py.pystr "abc") =
      Except.ok (Py.pystr "abc")) := by
  refine ⟨?_, ?_, ?_, rfl, rfl⟩
  · intro b bs n d v h
    simp [create_union_binder, union_go, h]
  · intro b bs n d m h
    simp [create_union_binder, union_go, h]
  · intro bs n d h
    induction bs with
    | nil => rfl
    | cons b bs ih =>
      obtain ⟨m, hm⟩ := h b (List.mem_cons_self b bs)
      have hrest := ih (fun b2 hb2 => h b2 (List.mem_cons_of_mem b hb2))
      simp only [create_union_binder, union_go, hm] at hrest ⊢
      exact hrest

/-- C4: the fixed-arity tuple binder rejects non-sequences with the
"must be convertable to list" binding failure; a shorter input binds exactly
as its right-padding with the absence marker up to the arity; a longer input
binds exactly as its truncation to the arity, the extra elements silently
dropped; e.g. `(int, Optional[int])` on `["1"]` gives `(1, None)` and
`(int, int)` on `["1", "2", "3"]` gives `(1, 2)`. -/
theorem fixed_tuple_pads_short_drops_extra_rejects_nonseq :
    (∀ (bs : List Binder) (d : Py), isSeq d = false →
      create_tuple_binder bs d =
        Except.error (Exc.pybindError "must be convertable to list")) ∧
    (∀ (bs : List Binder) (xs : List Py), xs.length ≤ bs.length →
      create_tuple_binder bs (Py.pylist xs) =
        create_tuple_binder bs
          (Py.pylist (xs ++ List.replicate (bs.length - xs.length) Py.missing))) ∧
    (∀ (bs : List Binder) (xs : List Py), bs.length ≤ xs.length →
      create_tuple_binder bs (Py.pylist xs) =
        create_tuple_binder bs (Py.pylist (xs.take bs.length))) ∧
    (create_tuple_binder [make_binder_required int_binder, make_binder_optional int_binder]
        (Py.pylist [Py.pystr "1"]) =
      Except.ok (Py.pytuple [Py.pyint 1, Py.pynone])) ∧
    (create_tuple_binder [make_binder_required int_binder, make_binder_required int_binder]
        (Py.pylist [Py.pystr "1", Py.pystr "2", Py.pystr "3"]) =
      Except.ok (Py.pytuple [Py.pyint 1, Py.pyint 2])) := by
  refine ⟨?_, ?_, ?_, rfl, rfl⟩
  · intro bs d h
    cases d <;> simp_all [isSeq, create_tuple_binder]
  · intro bs xs h
    have hlen : (xs ++ List.replicate (bs.length - xs.length) Py.missing).length = bs.length := by
      simp [Nat.add_sub_cancel' h]
    simp [create_tuple_binder, hlen]
  · intro bs xs h
    have h0 : bs.length - xs.length = 0 := Nat.sub_eq_zero_of_le h
    have hlen : (xs.take bs.length).length = bs.length := by
      simp [List.length_take, Nat.min_eq_left h]
    simp [create_tuple_binder, h0, hlen, bindEach_take]

/-- C7: getting the same descriptor twice from one factory returns the
identical cached binder object (and leaves the state unchanged the second
time); `register_binder` empties the whole memoization cache, so every
descriptor gotten after a registration is served by a freshly created
binder, distinct from every binder the old cache held (under the invariant
that cached ids were allocated before `nextId`); a fresh factory
demonstrates: get gives binder 0, get again gives 0, register then get
gives the new binder 1. -/
theorem factory_caches_by_identity_and_register_clears_cache :
    (∀ (s : BindersFactory) (d : Desc),
      ((s.get d).2.get d).1 = (s.get d).1 ∧ ((s.get d).2.get d).2 = (s.get d).2) ∧
    (∀ (s : BindersFactory) (k : String) (b : Nat), (s.register_binder k b).cache = []) ∧
    (∀ (s : BindersFactory) (k : String) (b : Nat) (d : Desc), s.WF →
      ∀ p ∈ s.cache, ((s.register_binder k b).get d).1 ≠ p.2) ∧
    (((⟨[], [], 0⟩ : BindersFactory).get (Desc.prim "int")).1 = 0 ∧
     (((⟨[], [], 0⟩ : BindersFactory).get (Desc.prim "int")).2.get (Desc.prim "int")).1 = 0 ∧
     ((((⟨[], [], 0⟩ : BindersFactory).get (Desc.prim "int")).2.register_binder "int" 7).get
        (Desc.prim "int")).1 = 1) := by
  refine ⟨?_, fun s k b => rfl, ?_, rfl, rfl, rfl⟩
  · intro s d
    cases h : cache_lookup s.cache d with
    | some b => simp [BindersFactory.get, h]
    | none =>
      have h2 := cache_lookup_append_self s.cache d s.nextId h
      simp [BindersFactory.get, h, h2]
  · intro s k b d hWF p hp
    have hlt : p.2 < s.nextId := hWF p hp
    show ((BindersFactory.register_binder s k b).get d).1 ≠ p.2
    simp only [BindersFactory.register_binder, BindersFactory.get, cache_lookup]
    exact fun he => absurd (he ▸ hlt) (lt_irrefl s.nextId)

/-- C8: driving a fresh collector with `'_1'` at the root, `'a_1'`, `'a_2'`
under `a`, `'aa_1'` under `a/aa`, `'b_1'` under `b` and `'b0_1'` under
`b/0`, then snapshotting, yields exactly the claimed nested tree: same-path
errors accumulate in order in the `''` local bucket and every used path
prefix is a nested map node. -/
theorem error_collector_scenario_yields_nested_tree :
    (runOp errorsScenario Errors.init).1.as_dict = expectedTree :=
  rfl

/-- C9: `with_path` pushes the segment for the duration of the enclosed
block — the body runs from the pushed path, and the scope's error tree and
exception outcome are exactly the body's — and restores the current path to
its previous value on every exit, for every collector state, segment and
enclosed block (bodies that add errors, nest further scopes, or raise
included). -/
theorem with_path_restores_current_path :
    ∀ (seg : Seg) (body : Op) (s : Errors),
      ((runOp (Op.with_path seg body) s).1)._current_path = s._current_path ∧
      (runOp (Op.with_path seg body) s).2 =
        (runOp body ⟨s._errors, s._current_path ++ [seg]⟩).2 ∧
      ((runOp (Op.with_path seg body) s).1)._errors =
        ((runOp body ⟨s._errors, s._current_path ++ [seg]⟩).1)._errors := by
  intro seg body s
  exact ⟨runOp_preserves_path (Op.with_path seg body) s, rfl, rfl⟩

/-- C10: named (map-keyed) binding of a custom aggregate or a NamedTuple
reads only the declared field names — two maps agreeing on every declared
field (including by shared absence) bind to equal results whatever other
keys they carry; concretely, an undeclared `"extra"` entry changes
nothing. -/
theorem named_binding_reads_only_declared_fields :
    (∀ (binders : List (String × Binder)) (m1 m2 : List (String × Py)),
      (∀ name ∈ binders.map Prod.fst, dict_get m1 name = dict_get m2 name) →
      custom_class_data_binder binders (Py.pydict m1) =
        custom_class_data_binder binders (Py.pydict m2)) ∧
    (∀ (clsName : String) (fields : List String) (binders : List (String × Binder))
        (m1 m2 : List (String × Py)),
      (∀ name ∈ binders.map Prod.fst, dict_get m1 name = dict_get m2 name) →
      created_namedtuple_binder clsName fields binders (Py.pydict m1) =
        created_namedtuple_binder clsName fields binders (Py.pydict m2)) ∧
    (custom_class_data_binder [("a", make_binder_required int_binder)]
        (Py.pydict [("a", Py.pystr "1"), ("extra", Py.pystr "zzz")]) =
      Except.ok (Py.pyobj [("a", Py.pyint 1)]) ∧
     custom_class_data_binder [("a", make_binder_required int_binder)]
        (Py.pydict [("a", Py.pystr "1")]) =
      Except.ok (Py.pyobj [("a", Py.pyint 1)])) := by
  refine ⟨?_, ?_, rfl, rfl⟩
  · intro binders m1 m2 h
    show (bind_fields binders m1).map Py.pyobj = (bind_fields binders m2).map Py.pyobj
    rw [bind_fields_congr binders m1 m2 h]
  · intro clsName fields binders m1 m2 h
    show (bind_fields binders m1).map Py.pyobj = (bind_fields binders m2).map Py.pyobj
    rw [bind_fields_congr binders m1 m2 h]

end Pybind
